import Mathlib

/-!
Shallow embedding of the connection-establishment core of
`api/client/client.go` (package `client` of the Teleport API):
the lifecycle flag `Client.atomicFlag` with its atomic compare-and-set
transitions (`setOpen`, `setClosed`, `isClosed`), the concurrent
connection race of `connectWithAuth` (attempt spawning, the shared
`clientChan`/`errChan` select loop, error aggregation, the fixed dial
deadline), the tunnel-redirect branch of `syncConnect`, the
dial-strategy enumeration over credential sets, and `Close`.

Connections, dialers and gRPC service handles are identified by `Nat`
ids; errors are `String` messages; Go durations are `Int` nanoseconds.
-/

namespace TeleportClient

/-- The first value of the `iota` block for `Client.atomicFlag`:
the connection is unset. -/
def unsetFlag : Int := 0

/-- The second value of the `iota` block: the connection is open. -/
def openFlag : Int := 1

/-- The third value of the `iota` block: the connection is closed. -/
def closedFlag : Int := 2

/-- `atomic.CompareAndSwapInt32`: when the current value equals `old` the
new value is stored and the swap reports true, otherwise the value is left
unchanged and the swap reports false. The result is the value stored after
the call together with the swapped flag. -/
def compareAndSwapInt32 (cur old new : Int) : Int × Bool :=
  if cur = old then (new, true) else (cur, false)

/-- `Client.setOpen`: `atomic.CompareAndSwapInt32(&c.atomicFlag, unsetFlag, openFlag)`. -/
def setOpen (flag : Int) : Int × Bool :=
  compareAndSwapInt32 flag unsetFlag openFlag

/-- `Client.setClosed`: `atomic.CompareAndSwapInt32(&c.atomicFlag, openFlag, closedFlag)`. -/
def setClosed (flag : Int) : Int × Bool :=
  compareAndSwapInt32 flag openFlag closedFlag

/-- `Client.isClosed`: `atomic.LoadInt32(&c.atomicFlag) == closedFlag`. -/
def isClosed (flag : Int) : Bool :=
  flag = closedFlag

/-- The operations ever performed on `Client.atomicFlag`: the two
compare-and-set transitions and the read in `isClosed`. -/
inductive FlagOp
  | opSetOpen
  | opSetClosed
  | opIsClosed
deriving DecidableEq

/-- The flag value after one operation. `opIsClosed` is a pure read. -/
def flagStep (f : Int) : FlagOp → Int
  | .opSetOpen => (setOpen f).1
  | .opSetClosed => (setClosed f).1
  | .opIsClosed => f

/-- The list of (before, after) flag values along a sequence of operations. -/
def flagTrace (f : Int) : List FlagOp → List (Int × Int)
  | [] => []
  | op :: ops => (f, flagStep f op) :: flagTrace (flagStep f op) ops

/-- Whether a (before, after) pair is the Unset-to-Open transition. -/
def isOpenTransition (t : Int × Int) : Bool :=
  t.1 = unsetFlag && t.2 = openFlag && t.1 ≠ t.2

/-- Whether a (before, after) pair is the Open-to-Closed transition. -/
def isCloseTransition (t : Int × Int) : Bool :=
  t.1 = openFlag && t.2 = closedFlag && t.1 ≠ t.2

/-- `trace.Wrap` on an error value: wrapping `nil` yields `nil`, wrapping a
real error keeps it (the message is preserved inside the trace wrapper). -/
def traceWrap (e : Option String) : Option String := e

/-- The slice of `Client` state that `Close` touches: the lifecycle flag and
the authoritative connection `c.conn`. `releasedConns` records every
connection on which `conn.Close()` has been invoked, in order. -/
structure ClientState where
  atomicFlag : Int
  conn : Option Nat
  releasedConns : List Nat
deriving DecidableEq

/-- `Client.Close` (client.go 344-352): when `c.setClosed()` wins the
Open-to-Closed compare-and-set, `c.conn.Close()` is called (recorded in
`releasedConns`, with its error given by the oracle `releaseErr`), `c.conn`
is cleared, and the wrapped release error is returned; otherwise the call
returns `nil` and touches nothing else. -/
def Close (releaseErr : Option Nat → Option String) (st : ClientState) :
    ClientState × Option String :=
  let s := setClosed st.atomicFlag
  if s.2 then
    (⟨s.1, none, st.releasedConns ++ st.conn.toList⟩, traceWrap (releaseErr st.conn))
  else
    (⟨s.1, st.conn, st.releasedConns⟩, none)

/-- Iterate `Close` `n` times from `st`, collecting the returned errors in
call order. -/
def closeIter (releaseErr : Option Nat → Option String) (st : ClientState) :
    Nat → ClientState × List (Option String)
  | 0 => (st, [])
  | n + 1 =>
    let r := Close releaseErr st
    let rest := closeIter releaseErr r.1 n
    (rest.1, r.2 :: rest.2)

/-- Result of one dial through the function returned by `Client.grpcDialer`:
either a connection or an error message, together with whether the wrapped
underlying `dialer.DialContext` was invoked at all. -/
structure GrpcDialOutcome where
  result : Except String Nat
  underlyingInvoked : Bool

/-- The closure returned by `Client.grpcDialer` (client.go 262-273): it first
checks `c.isClosed()` and fails with the connection problem "client is
closed" without calling the underlying dialer; otherwise it invokes
`dialer.DialContext` and wraps a failure as a connection problem with the
same message. -/
def grpcDialer (flag : Int) (dial : String → Except String Nat) (addr : String) :
    GrpcDialOutcome :=
  if isClosed flag then
    ⟨.error "client is closed", false⟩
  else
    match dial addr with
    | .ok conn => ⟨.ok conn, true⟩
    | .error e => ⟨.error e, true⟩

/-- The fields of `Config` (client.go 276-296) that the connection race
reads. `Dialer` is `some id` when a custom dialer is configured
(`c.c.Dialer != nil`). Durations are in nanoseconds, as Go durations are. -/
structure Config where
  Addrs : List String
  Dialer : Option Nat
  DialTimeout : Int
  KeepAlivePeriod : Int
  KeepAliveCount : Int
deriving DecidableEq

/-- Go `time.Second` in nanoseconds. -/
def timeSecond : Int := 1000000000

/-- The timeout that `connectWithAuth` installs on its race (client.go 93):
`context.WithTimeout(context.Background(), time.Second)` — the literal
`time.Second`, whatever the configuration says. -/
def connectWithAuthTimeout (_ : Config) : Int := timeSecond

/-- `constants.APIDomain`, the fixed well-known domain name dialed when a
credential-set or configuration dialer is used. Its concrete value lives
outside the excerpted sources; only its fixedness matters here. -/
def APIDomain : String := "teleport.cluster.local"

/-- The kind of dialer a spawned `syncConnect` goroutine is given. -/
inductive AttemptKind
  | credsDialer
  | configDialer
  | direct
  | tunnel
deriving DecidableEq

/-- One `go syncConnect(ctx, *c, dialer, addr)` spawn: which dialer kind and
which address argument it receives. -/
structure Attempt where
  kind : AttemptKind
  addr : String
deriving DecidableEq

/-- How one credential set fares in the loop at client.go 140-179:
`creds.TLSConfig()` fails, or it succeeds and `creds.SSHConfig()` fails, or
both succeed — in which case `hasCredsDialer` says whether `creds.Dialer()`
returned without error and `hasSSH` whether the resolved SSH config is
non-nil. -/
inductive CredOutcome
  | tlsFail (e : String)
  | sshFail (e : String)
  | ok (hasCredsDialer : Bool) (hasSSH : Bool)
deriving DecidableEq

/-- The `syncConnect` goroutines spawned for one credential set
(client.go 154-178): a failed resolution spawns none; with a credentials
dialer, one attempt against `constants.APIDomain`; else with a configured
dialer, one attempt against `constants.APIDomain`; else one direct attempt
per configured address, plus one tunnel attempt per configured address when
the SSH config is non-nil. -/
def spawnsFor (cfg : Config) : CredOutcome → List Attempt
  | .tlsFail _ => []
  | .sshFail _ => []
  | .ok hasCredsDialer hasSSH =>
    if hasCredsDialer then
      [⟨.credsDialer, APIDomain⟩]
    else if cfg.Dialer.isSome then
      [⟨.configDialer, APIDomain⟩]
    else
      cfg.Addrs.map (fun a => ⟨.direct, a⟩) ++
        (if hasSSH then cfg.Addrs.map (fun a => ⟨.tunnel, a⟩) else [])

/-- The slice of shared `Client` state the racing `syncConnect` goroutines
touch when they finish (client.go 131-137): the lifecycle flag and the
authoritative `c.dialer`, `c.conn`, `c.grpc`. `closedConns` records every
connection a finishing attempt closes — the code closes none. -/
structure RaceState where
  atomicFlag : Int
  conn : Option Nat
  dialer : Option Nat
  grpc : Option Nat
  closedConns : List Nat
deriving DecidableEq

/-- The shared state at the start of `connectWithAuth`: a fresh `Client` has
flag `unsetFlag` and no installed connection, dialer or service. -/
def initRaceState : RaceState := ⟨unsetFlag, none, none, none, []⟩

/-- How one `syncConnect` attempt ends: with an error sent on `errChan`, or
with a ready connection, the dialer it used, and the gRPC service handle. -/
inductive AttemptOutcome
  | fail (e : String)
  | succ (conn dialer service : Nat)
deriving DecidableEq

/-- The tail of `syncConnect` (client.go 131-137) for one finished attempt:
a failed attempt only reports its error; a successful one calls
`c.setOpen()` and, only when that compare-and-set wins, installs its
dialer, connection and service handle on the shared client and yields the
client on `clientChan`. A losing successful attempt does nothing further —
in particular it does not close its connection. The second component is
the installed triple when this attempt won the claim. -/
def finishAttempt (st : RaceState) :
    AttemptOutcome → RaceState × Option (Nat × Nat × Nat)
  | .fail _ => (st, none)
  | .succ conn dialer service =>
    let s := setOpen st.atomicFlag
    if s.2 then
      (⟨s.1, some conn, some dialer, some service, st.closedConns⟩,
        some (conn, dialer, service))
    else
      (st, none)

/-- Run the finishing steps of a list of attempts in the order their
`setOpen` calls serialize, collecting the winners' installed triples. -/
def finishAll (st : RaceState) : List AttemptOutcome → RaceState × List (Nat × Nat × Nat)
  | [] => (st, [])
  | o :: os =>
    let r := finishAttempt st o
    let rest := finishAll r.1 os
    (rest.1, r.2.toList ++ rest.2)

/-- The connections opened by the successful attempts of a run. -/
def openedConns : List AttemptOutcome → List Nat
  | [] => []
  | .fail _ :: os => openedConns os
  | .succ c _ _ :: os => c :: openedConns os

/-- What the select loop of `connectWithAuth` (client.go 182-195) can
receive: the winning client on `clientChan`, one attempt error on
`errChan`, or the expiry of `dialContext`. -/
inductive RaceEvent
  | clientReady
  | attemptErr (e : String)
  | timeout
deriving DecidableEq

/-- `dialContext.Err()` once the one-second deadline has fired. -/
def deadlineExceeded : String := "context deadline exceeded"

/-- The error list `connectWithAuth` returns on `dialContext.Done()`
(client.go 188-193): `trace.NewAggregate(errs...)` is nil exactly when
`errs` is empty, and only then is it replaced by `dialContext.Err()`;
the whole thing is then wrapped with "all auth methods failed". -/
def timeoutAggregate (errs : List String) : List String :=
  if errs.isEmpty then [deadlineExceeded] else errs

/-- Outcome of the select loop: a connected client, or failure with the
errors inside the returned aggregate. -/
inductive RaceOutcome
  | connected
  | failed (errs : List String)
deriving DecidableEq

/-- The select loop of `connectWithAuth` (client.go 181-195), driven by the
sequence of events it receives: `clientChan` returns success at once;
`errChan` appends the error to `errs` and loops; `dialContext.Done()`
returns the aggregate. `none` means the loop is still waiting. -/
def raceLoop : List RaceEvent → List String → Option RaceOutcome
  | [], _ => none
  | .clientReady :: _, _ => some .connected
  | .attemptErr e :: evs, errs => raceLoop evs (errs ++ [e])
  | .timeout :: _, errs => some (.failed (timeoutAggregate errs))

/-- A health-check response; `PublicTunnelAddr` non-empty signals that the
dialed endpoint is a web proxy fronting a reverse tunnel. -/
structure PingResponse where
  PublicTunnelAddr : String
deriving DecidableEq

/-- Which dialer a `getClientConn` call inside one attempt is given: the
dialer the attempt was spawned with, or the tunnel dialer the attempt
builds itself from the SSH config. -/
inductive SyncDialer
  | spawned
  | tunnelFromSSH
deriving DecidableEq

/-- What `syncConnect` installs when it reaches the `setOpen` claim:
`conn` is the connection stored in `c.conn`, `serviceConn` the connection
the stored `c.grpc` service handle actually wraps, and `tunnelAddrDialed`
the address given to `getClientConn` in the tunnel branch, when taken. -/
structure SyncResult where
  conn : Nat
  serviceConn : Nat
  tunnelAddrDialed : Option String
deriving DecidableEq

/-- The body of one `syncConnect` attempt before the claim
(client.go 99-130), with dialing and pinging supplied as oracles. The
attempt dials `addr`, pings; when the response advertises a public tunnel
address and the client carries an SSH config, it builds a tunnel dialer
and dials the literal "localhost:3024" (the line using
`resp.PublicTunnelAddr` is commented out in the source) and pings again.
The inner `conn, err := ...` of that branch shadows the outer `conn`, so
the value later installed in `c.conn` is still the outer (original)
connection, while `service` — assigned with plain `=` — wraps the tunnel
connection. -/
def syncConnect (sshConfigPresent : Bool)
    (getClientConn : SyncDialer → String → Except String Nat)
    (ping : Nat → Except String PingResponse)
    (addr : String) : Except String SyncResult :=
  match getClientConn .spawned addr with
  | .error e => .error e
  | .ok conn =>
    match ping conn with
    | .error e => .error e
    | .ok resp =>
      if resp.PublicTunnelAddr ≠ "" && sshConfigPresent then
        match getClientConn .tunnelFromSSH "localhost:3024" with
        | .error e => .error e
        | .ok conn2 =>
          match ping conn2 with
          | .error e => .error e
          | .ok _ => .ok ⟨conn, conn2, some "localhost:3024"⟩
      else
        .ok ⟨conn, conn, none⟩

/-- The two unbuffered channels `connectWithAuth` creates (client.go 91-92). -/
inductive Chan
  | errChan
  | clientChan
deriving DecidableEq

/-- A channel operation of one goroutine of `connectWithAuth`: a send on one
of the two unbuffered channels, the select that receives from both (or
fires on `dialContext.Done()`), or returning from the function. -/
inductive GoInstr
  | send (ch : Chan)
  | recvSelect
  | ret
deriving DecidableEq

/-- The goroutines of one `connectWithAuth` call, each reduced to its
remaining sequence of channel operations: the main goroutine and the
spawned `syncConnect` goroutines. -/
structure GoConfig where
  main : List GoInstr
  spawned : List (List GoInstr)

/-- Rendezvous semantics of the unbuffered channels: a send completes only
together with a matching receive by another goroutine; the select can also
fire alone on `dialContext.Done()`. Only the main goroutine contains
receives, so the pairing rules cover main-receive with spawned-send,
main-send with spawned-receive, and spawned with spawned. -/
inductive GoStep : GoConfig → GoConfig → Prop
  | selectRecv (m : List GoInstr) (sp : List (List GoInstr)) (i : Nat) (ch : Chan)
      (g : List GoInstr) (hg : sp.get? i = some (GoInstr.send ch :: g)) :
      GoStep ⟨GoInstr.recvSelect :: m, sp⟩ ⟨m, sp.set i g⟩
  | selectDone (m : List GoInstr) (sp : List (List GoInstr)) :
      GoStep ⟨GoInstr.recvSelect :: m, sp⟩ ⟨m, sp⟩
  | mainSend (ch : Chan) (m : List GoInstr) (sp : List (List GoInstr)) (i : Nat)
      (g : List GoInstr) (hg : sp.get? i = some (GoInstr.recvSelect :: g)) :
      GoStep ⟨GoInstr.send ch :: m, sp⟩ ⟨m, sp.set i g⟩
  | spawnedPair (m : List GoInstr) (sp : List (List GoInstr)) (i j : Nat) (ch : Chan)
      (gi gj : List GoInstr) (hne : i ≠ j)
      (hi : sp.get? i = some (GoInstr.send ch :: gi))
      (hj : sp.get? j = some (GoInstr.recvSelect :: gj)) :
      GoStep ⟨m, sp⟩ ⟨m, (sp.set i gi).set j gj⟩

/-- The channel operations the main goroutine performs for one credential
set in the loop at client.go 140-179: a failed `TLSConfig()` or
`SSHConfig()` resolution executes `errChan <- trace.Wrap(err)` and
continues; a successful resolution only spawns goroutines, which is no
channel operation of the main goroutine itself. -/
def credChanOps : CredOutcome → List GoInstr
  | .tlsFail _ => [.send .errChan]
  | .sshFail _ => [.send .errChan]
  | .ok _ _ => []

/-- The main goroutine of `connectWithAuth` as channel operations: the
credential loop's sends followed by the select loop, abstracted as the
continuation `rest` (whose head would be the select's receive). -/
def connectWithAuthMain (outs : List CredOutcome) (rest : List GoInstr) : List GoInstr :=
  (outs.map credChanOps).flatten ++ rest

/-- The channel operations of one spawned `syncConnect` goroutine: exactly
one send — its error on `errChan` or the winning client on `clientChan`. -/
def syncConnectChanOps : AttemptOutcome → List GoInstr
  | .fail _ => [.send .errChan]
  | .succ _ _ _ => [.send .clientChan]

/-- A flag operation that changes the flag is a successful `setOpen` from
`unsetFlag` or a successful `setClosed` from `openFlag`. -/
lemma flagStep_change (f : Int) (op : FlagOp) (h : flagStep f op ≠ f) :
    (op = FlagOp.opSetOpen ∧ f = unsetFlag ∧ flagStep f op = openFlag ∧ (setOpen f).2 = true) ∨
    (op = FlagOp.opSetClosed ∧ f = openFlag ∧ flagStep f op = closedFlag ∧
      (setClosed f).2 = true) := by
  cases op <;>
    simp only [flagStep, setOpen, setClosed, compareAndSwapInt32, unsetFlag, openFlag,
      closedFlag] at h ⊢ <;>
    split_ifs at h ⊢ <;> simp_all

/-- Every state change recorded in a flag trace is Unset-to-Open or
Open-to-Closed, whatever the starting value. -/
lemma flagTrace_change (ops : List FlagOp) (f : Int) (t : Int × Int)
    (ht : t ∈ flagTrace f ops) (hne : t.1 ≠ t.2) :
    (t.1 = unsetFlag ∧ t.2 = openFlag) ∨ (t.1 = openFlag ∧ t.2 = closedFlag) := by
  induction ops generalizing f with
  | nil => simp [flagTrace] at ht
  | cons op ops ih =>
    simp only [flagTrace, List.mem_cons] at ht
    rcases ht with h | h
    · subst h
      rcases flagStep_change f op (fun hc => hne hc.symm) with ⟨_, h1, h2, _⟩ | ⟨_, h1, h2, _⟩
      · exact Or.inl ⟨h1, h2⟩
      · exact Or.inr ⟨h1, h2⟩
    · exact ih _ h

/-- A step from a non-Unset flag never lands on Unset. -/
lemma flagStep_ne_unset (f : Int) (hf : f ≠ unsetFlag) (op : FlagOp) :
    flagStep f op ≠ unsetFlag := by
  cases op <;>
    simp only [flagStep, setOpen, setClosed, compareAndSwapInt32, unsetFlag, openFlag,
      closedFlag] at hf ⊢ <;>
    first
    | assumption
    | (split_ifs <;> simp_all)

/-- From a non-Unset flag no Unset-to-Open transition ever occurs. -/
lemma countOpen_zero (ops : List FlagOp) (f : Int) (hf : f ≠ unsetFlag) :
    (flagTrace f ops).countP isOpenTransition = 0 := by
  induction ops generalizing f with
  | nil => simp [flagTrace]
  | cons op ops ih =>
    have hhead : isOpenTransition (f, flagStep f op) = false := by
      simp only [isOpenTransition, unsetFlag, openFlag] at hf ⊢
      simp_all
    simp [flagTrace, List.countP_cons, hhead, ih _ (flagStep_ne_unset f hf op)]

/-- The Unset-to-Open transition fires at most once along any trace. -/
lemma countOpen_le_one (ops : List FlagOp) (f : Int) :
    (flagTrace f ops).countP isOpenTransition ≤ 1 := by
  induction ops generalizing f with
  | nil => simp [flagTrace]
  | cons op ops ih =>
    by_cases hhead : isOpenTransition (f, flagStep f op) = true
    · have h2 : flagStep f op = openFlag := by
        simp only [isOpenTransition, decide_eq_true_eq, Bool.and_eq_true, ne_eq,
          decide_not] at hhead
        exact hhead.1.2
      have : (flagTrace (flagStep f op) ops).countP isOpenTransition = 0 :=
        countOpen_zero ops _ (by rw [h2]; norm_num [openFlag, unsetFlag])
      simp [flagTrace, List.countP_cons, hhead, this]
    · simp only [Bool.not_eq_true] at hhead
      simp [flagTrace, List.countP_cons, hhead, ih (flagStep f op)]

/-- A flag that is neither Unset nor Open never moves again. -/
lemma flagStep_fixed (f : Int) (hf0 : f ≠ unsetFlag) (hf1 : f ≠ openFlag) (op : FlagOp) :
    flagStep f op = f := by
  cases op <;>
    simp only [flagStep, setOpen, setClosed, compareAndSwapInt32, unsetFlag, openFlag,
      closedFlag] at hf0 hf1 ⊢ <;>
    split_ifs <;> simp_all

/-- From a flag that is neither Unset nor Open, no Open-to-Closed transition
ever occurs. -/
lemma countClose_zero (ops : List FlagOp) (f : Int) (hf0 : f ≠ unsetFlag)
    (hf1 : f ≠ openFlag) :
    (flagTrace f ops).countP isCloseTransition = 0 := by
  induction ops with
  | nil => simp [flagTrace]
  | cons op ops ih =>
    have hfix := flagStep_fixed f hf0 hf1 op
    have hhead : isCloseTransition (f, f) = false := by
      simp [isCloseTransition]
    simp [flagTrace, hfix, List.countP_cons, hhead, ih]

/-- The Open-to-Closed transition fires at most once along any trace. -/
lemma countClose_le_one (ops : List FlagOp) (f : Int) :
    (flagTrace f ops).countP isCloseTransition ≤ 1 := by
  induction ops generalizing f with
  | nil => simp [flagTrace]
  | cons op ops ih =>
    by_cases hhead : isCloseTransition (f, flagStep f op) = true
    · have h2 : flagStep f op = closedFlag := by
        simp only [isCloseTransition, decide_eq_true_eq, Bool.and_eq_true, ne_eq,
          decide_not] at hhead
        exact hhead.1.2
      have : (flagTrace (flagStep f op) ops).countP isCloseTransition = 0 :=
        countClose_zero ops _ (by rw [h2]; norm_num [closedFlag, unsetFlag])
          (by rw [h2]; norm_num [closedFlag, openFlag])
      simp [flagTrace, List.countP_cons, hhead, this]
    · simp only [Bool.not_eq_true] at hhead
      simp [flagTrace, List.countP_cons, hhead, ih (flagStep f op)]

/-- C3: the lifecycle flag is monotonic. Starting from `unsetFlag`, along any
sequence of `setOpen`, `setClosed` and `isClosed` operations, the only state
changes are Unset-to-Open and Open-to-Closed, each fires at most once, and a
change happens only through a successful compare-and-set of `setOpen` or
`setClosed`. -/
theorem c3_flag_monotonic (ops : List FlagOp) :
    (∀ t ∈ flagTrace unsetFlag ops, t.1 ≠ t.2 →
        (t.1 = unsetFlag ∧ t.2 = openFlag) ∨ (t.1 = openFlag ∧ t.2 = closedFlag)) ∧
    (flagTrace unsetFlag ops).countP isOpenTransition ≤ 1 ∧
    (flagTrace unsetFlag ops).countP isCloseTransition ≤ 1 ∧
    (∀ f op, flagStep f op ≠ f →
        (op = FlagOp.opSetOpen ∧ (setOpen f).2 = true) ∨
        (op = FlagOp.opSetClosed ∧ (setClosed f).2 = true)) := by
  refine ⟨fun t ht hne => flagTrace_change ops unsetFlag t ht hne,
    countOpen_le_one ops unsetFlag, countClose_le_one ops unsetFlag, fun f op h => ?_⟩
  rcases flagStep_change f op h with ⟨h1, _, _, h4⟩ | ⟨h1, _, _, h4⟩
  · exact Or.inl ⟨h1, h4⟩
  · exact Or.inr ⟨h1, h4⟩

/-- Witness for C3 at a concrete operation sequence. -/
theorem c3_flag_monotonic_witness :
    (∀ t ∈ flagTrace unsetFlag [FlagOp.opSetOpen, FlagOp.opSetClosed, FlagOp.opIsClosed],
        t.1 ≠ t.2 →
        (t.1 = unsetFlag ∧ t.2 = openFlag) ∨ (t.1 = openFlag ∧ t.2 = closedFlag)) ∧
    (flagTrace unsetFlag
        [FlagOp.opSetOpen, FlagOp.opSetClosed, FlagOp.opIsClosed]).countP
      isOpenTransition ≤ 1 :=
  ⟨(c3_flag_monotonic [FlagOp.opSetOpen, FlagOp.opSetClosed, FlagOp.opIsClosed]).1,
    (c3_flag_monotonic [FlagOp.opSetOpen, FlagOp.opSetClosed, FlagOp.opIsClosed]).2.1⟩

/-- `Close` on an already-closed client returns `nil` and changes nothing. -/
lemma close_closed (releaseErr : Option Nat → Option String) (st : ClientState)
    (h : st.atomicFlag = closedFlag) :
    Close releaseErr st = (st, none) := by
  cases st with
  | mk flag conn rel =>
    simp only at h
    subst h
    norm_num [Close, setClosed, compareAndSwapInt32, openFlag, closedFlag]

/-- Iterating `Close` on an already-closed client returns `nil` every time
and changes nothing. -/
lemma closeIter_closed (releaseErr : Option Nat → Option String) (st : ClientState)
    (h : st.atomicFlag = closedFlag) (n : Nat) :
    closeIter releaseErr st n = (st, List.replicate n none) := by
  induction n with
  | zero => rfl
  | succ n ih =>
    simp [closeIter, close_closed releaseErr st h, ih, List.replicate_succ]

/-- `Close` on an open client wins the Open-to-Closed claim: it releases the
stored connection, clears it, and returns the wrapped release error. -/
lemma close_open (releaseErr : Option Nat → Option String) (st : ClientState)
    (h : st.atomicFlag = openFlag) :
    Close releaseErr st =
      (⟨closedFlag, none, st.releasedConns ++ st.conn.toList⟩, releaseErr st.conn) := by
  cases st with
  | mk flag conn rel =>
    simp only at h
    subst h
    norm_num [Close, setClosed, compareAndSwapInt32, openFlag, closedFlag, traceWrap]

/-- C7: `Close` is idempotent. From an open client, any sequence of `Close`
calls releases the underlying connection exactly once — on the first call,
the one that wins the Open-to-Closed compare-and-set — and that call returns
the (possibly nil) release error; every later call is a no-op returning
`nil`, and the recorded releases grow by exactly the one stored
connection. -/
theorem c7_close_idempotent (releaseErr : Option Nat → Option String)
    (st : ClientState) (h : st.atomicFlag = openFlag) (n : Nat) :
    (closeIter releaseErr st (n + 1)).2 = releaseErr st.conn :: List.replicate n none ∧
    (closeIter releaseErr st (n + 1)).1.releasedConns =
      st.releasedConns ++ st.conn.toList ∧
    (closeIter releaseErr st (n + 1)).1.conn = none ∧
    (closeIter releaseErr st (n + 1)).1.atomicFlag = closedFlag := by
  have h1 := close_open releaseErr st h
  have h2 := closeIter_closed releaseErr
    (⟨closedFlag, none, st.releasedConns ++ st.conn.toList⟩ : ClientState) rfl n
  simp [closeIter, h1, h2]

/-- Witness for C7: a concrete open client, closed three times. The first
call returns the release error, the next two return `nil`, and the
connection `7` is released exactly once. -/
theorem c7_close_idempotent_witness :
    (⟨openFlag, some 7, []⟩ : ClientState).atomicFlag = openFlag ∧
    ((closeIter (fun _ => some "rpc error") ⟨openFlag, some 7, []⟩ (2 + 1)).2 =
        some "rpc error" :: List.replicate 2 none ∧
      (closeIter (fun _ => some "rpc error") ⟨openFlag, some 7, []⟩ (2 + 1)).1.releasedConns =
        [] ++ (some 7 : Option Nat).toList ∧
      (closeIter (fun _ => some "rpc error") ⟨openFlag, some 7, []⟩ (2 + 1)).1.conn = none ∧
      (closeIter (fun _ => some "rpc error") ⟨openFlag, some 7, []⟩ (2 + 1)).1.atomicFlag =
        closedFlag) :=
  ⟨rfl, c7_close_idempotent (fun _ => some "rpc error") ⟨openFlag, some 7, []⟩ rfl 2⟩

/-- C10: `Close` before any attempt has won the Open claim is a no-op: the
Open-to-Closed compare-and-set fails on an Unset flag, so the call returns
`nil`, releases nothing, leaves the whole state (flag included) unchanged,
and a later Unset-to-Open claim still succeeds. -/
theorem c10_close_unset_noop (releaseErr : Option Nat → Option String)
    (st : ClientState) (h : st.atomicFlag = unsetFlag) :
    (Close releaseErr st).2 = none ∧
    (Close releaseErr st).1 = st ∧
    (Close releaseErr st).1.atomicFlag = unsetFlag ∧
    (setOpen (Close releaseErr st).1.atomicFlag).2 = true := by
  cases st with
  | mk flag conn rel =>
    simp only at h
    subst h
    norm_num [Close, setClosed, setOpen, compareAndSwapInt32, unsetFlag, openFlag,
      closedFlag]

/-- Witness for C10 at a concrete unset client. -/
theorem c10_close_unset_noop_witness :
    (⟨unsetFlag, none, []⟩ : ClientState).atomicFlag = unsetFlag ∧
    ((Close (fun _ => some "boom") ⟨unsetFlag, none, []⟩).2 = none ∧
      (Close (fun _ => some "boom") ⟨unsetFlag, none, []⟩).1 = ⟨unsetFlag, none, []⟩ ∧
      (Close (fun _ => some "boom") ⟨unsetFlag, none, []⟩).1.atomicFlag = unsetFlag ∧
      (setOpen (Close (fun _ => some "boom") ⟨unsetFlag, none, []⟩).1.atomicFlag).2 = true) :=
  ⟨rfl, c10_close_unset_noop (fun _ => some "boom") ⟨unsetFlag, none, []⟩ rfl⟩

/-- C8: once the flag is Closed, every dial through the wrapped dialer
returned by `grpcDialer` fails with the connection problem "client is
closed" and the underlying dialer's `DialContext` is never invoked. -/
theorem c8_closed_fails_fast (flag : Int) (h : flag = closedFlag)
    (dial : String → Except String Nat) (addr : String) :
    grpcDialer flag dial addr = ⟨Except.error "client is closed", false⟩ := by
  subst h
  simp [grpcDialer, isClosed]

/-- Witness for C8 at a concrete dialer and address: the underlying dialer
would yield connection `5`, but the closed check fires first. -/
theorem c8_closed_fails_fast_witness :
    (closedFlag : Int) = closedFlag ∧
    grpcDialer closedFlag (fun _ => Except.ok 5) "auth.example.com:3025" =
      ⟨Except.error "client is closed", false⟩ :=
  ⟨rfl, c8_closed_fails_fast closedFlag rfl (fun _ => Except.ok 5) "auth.example.com:3025"⟩

/-- Once the race flag has left Unset, no further attempt changes the shared
state or wins the claim. -/
lemma finishAll_not_unset (st : RaceState) (h : st.atomicFlag ≠ unsetFlag)
    (os : List AttemptOutcome) :
    finishAll st os = (st, []) := by
  induction os with
  | nil => rfl
  | cons o os ih =>
    have hf : finishAttempt st o = (st, none) := by
      cases o with
      | fail e => rfl
      | succ c d s => simp [finishAttempt, setOpen, compareAndSwapInt32, h]
    simp [finishAll, hf, ih]

/-- From an Unset flag, at most one attempt wins the race; only the winner
installs its connection, dialer and service; the shared state is otherwise
untouched; and no attempt ever closes a connection. -/
lemma finishAll_unset (os : List AttemptOutcome) (st : RaceState)
    (h : st.atomicFlag = unsetFlag) :
    (finishAll st os).2.length ≤ 1 ∧
    (∀ w ∈ (finishAll st os).2,
        (finishAll st os).1.conn = some w.1 ∧
        (finishAll st os).1.dialer = some w.2.1 ∧
        (finishAll st os).1.grpc = some w.2.2) ∧
    ((finishAll st os).2 = [] → (finishAll st os).1 = st) ∧
    (finishAll st os).1.closedConns = st.closedConns := by
  induction os generalizing st with
  | nil => simp [finishAll]
  | cons o os ih =>
    cases o with
    | fail e =>
      have hf : finishAttempt st (.fail e) = (st, none) := rfl
      simpa [finishAll, hf] using ih st h
    | succ c d s =>
      have hw : finishAttempt st (.succ c d s) =
          (⟨openFlag, some c, some d, some s, st.closedConns⟩, some (c, d, s)) := by
        simp [finishAttempt, setOpen, compareAndSwapInt32, h, unsetFlag, openFlag]
      have hrest : finishAll
          (⟨openFlag, some c, some d, some s, st.closedConns⟩ : RaceState) os =
          (⟨openFlag, some c, some d, some s, st.closedConns⟩, []) :=
        finishAll_not_unset _ (by norm_num [openFlag, unsetFlag]) os
      simp [finishAll, hw, hrest]

/-- C1 (amended): over any serialization of finishing attempts from a fresh
client, at most one attempt's Unset-to-Open compare-and-set succeeds, only
that winner installs its connection, dialer and service handle as the
authoritative ones (none are installed when no attempt wins), and the race
closes no connection at all — losing successful attempts leave their
connections open rather than releasing them. -/
theorem c1_single_winner_no_release (os : List AttemptOutcome) :
    (finishAll initRaceState os).2.length ≤ 1 ∧
    (∀ w ∈ (finishAll initRaceState os).2,
        (finishAll initRaceState os).1.conn = some w.1 ∧
        (finishAll initRaceState os).1.dialer = some w.2.1 ∧
        (finishAll initRaceState os).1.grpc = some w.2.2) ∧
    ((finishAll initRaceState os).2 = [] →
        (finishAll initRaceState os).1.conn = none ∧
        (finishAll initRaceState os).1.dialer = none ∧
        (finishAll initRaceState os).1.grpc = none) ∧
    (finishAll initRaceState os).1.closedConns = [] := by
  obtain ⟨h1, h2, h3, h4⟩ := finishAll_unset os initRaceState rfl
  refine ⟨h1, h2, fun he => ?_, h4⟩
  rw [h3 he]
  exact ⟨rfl, rfl, rfl⟩

/-- Witness for C1 at a concrete two-attempt run: one attempt wins and the
race closes nothing. -/
theorem c1_single_winner_no_release_witness :
    (finishAll initRaceState
        [AttemptOutcome.succ 1 10 100, AttemptOutcome.fail "refused"]).2.length ≤ 1 ∧
    (finishAll initRaceState
        [AttemptOutcome.succ 1 10 100, AttemptOutcome.fail "refused"]).1.closedConns = [] :=
  ⟨(c1_single_winner_no_release
      [AttemptOutcome.succ 1 10 100, AttemptOutcome.fail "refused"]).1,
    (c1_single_winner_no_release
      [AttemptOutcome.succ 1 10 100, AttemptOutcome.fail "refused"]).2.2.2⟩

/-- Counterexample for C1 as stated: with two successful attempts, the
second one opens connection `2`, loses the claim (connection `1` is the
authoritative one), and its connection is never released — the race closes
no connection, so a losing connection is left open. -/
theorem c1_loser_not_released_cex :
    2 ∈ openedConns [AttemptOutcome.succ 1 10 100, AttemptOutcome.succ 2 20 200] ∧
    (finishAll initRaceState
        [AttemptOutcome.succ 1 10 100, AttemptOutcome.succ 2 20 200]).1.conn ≠ some 2 ∧
    2 ∉ (finishAll initRaceState
        [AttemptOutcome.succ 1 10 100, AttemptOutcome.succ 2 20 200]).1.closedConns := by
  refine ⟨by decide, by decide, by decide⟩

/-- Errors delivered on `errChan` before later events are folded into the
accumulator in arrival order. -/
lemma raceLoop_append_errs (es : List String) (evs : List RaceEvent)
    (errs : List String) :
    raceLoop (es.map RaceEvent.attemptErr ++ evs) errs = raceLoop evs (errs ++ es) := by
  induction es generalizing errs with
  | nil => simp
  | cons e es ih =>
    simp only [List.map_cons, List.cons_append, raceLoop, List.append_eq]
    rw [ih (errs ++ [e]), List.append_assoc]
    rfl

/-- C4 (amended): when the deadline fires after the attempt errors
`es` arrived and no attempt won, `connectWithAuth` returns the aggregate of
exactly those errors — none dropped — and the timeout error
`dialContext.Err()` is included only in the case where no attempt error was
collected; it is not additionally included when attempt errors exist. -/
theorem c4_timeout_aggregate (es : List String) (rest : List RaceEvent) :
    raceLoop (es.map RaceEvent.attemptErr ++ RaceEvent.timeout :: rest) [] =
      some (RaceOutcome.failed (timeoutAggregate es)) ∧
    (∀ e ∈ es, e ∈ timeoutAggregate es) ∧
    (es = [] → timeoutAggregate es = [deadlineExceeded]) ∧
    (es ≠ [] → timeoutAggregate es = es) := by
  refine ⟨?_, ?_, ?_, ?_⟩
  · rw [raceLoop_append_errs]
    simp [raceLoop]
  · intro e he
    have : ¬ es.isEmpty := by
      cases es with
      | nil => simp at he
      | cons x xs => simp
    simpa [timeoutAggregate, this] using he
  · intro he
    simp [timeoutAggregate, he]
  · intro he
    simp [timeoutAggregate, List.isEmpty_iff, he]

/-- Witness for C4 at two concrete attempt errors: both appear in the
aggregate and the aggregate is exactly those two errors. -/
theorem c4_timeout_aggregate_witness :
    raceLoop (["refused", "handshake failed"].map RaceEvent.attemptErr ++
        RaceEvent.timeout :: []) [] =
      some (RaceOutcome.failed (timeoutAggregate ["refused", "handshake failed"])) ∧
    timeoutAggregate ["refused", "handshake failed"] = ["refused", "handshake failed"] :=
  ⟨(c4_timeout_aggregate ["refused", "handshake failed"] []).1,
    (c4_timeout_aggregate ["refused", "handshake failed"] []).2.2.2 (by decide)⟩

/-- Counterexample for C4 as stated: one attempt error arrived and then the
deadline fired, yet the returned aggregate holds only the attempt error —
the timeout error is not additionally contained in it. -/
theorem c4_timeout_error_dropped_cex :
    raceLoop [RaceEvent.attemptErr "connection refused", RaceEvent.timeout] [] =
      some (RaceOutcome.failed ["connection refused"]) ∧
    deadlineExceeded ∉ ["connection refused"] := by
  refine ⟨rfl, by decide⟩

/-- C6 (amended): the deadline `connectWithAuth` races against is the fixed
`time.Second`, whatever the configuration (in particular it is not the
configured `DialTimeout`, which only parameterizes the per-attempt dialers),
and once the deadline event is delivered the select loop returns instead of
waiting indefinitely. -/
theorem c6_fixed_deadline (cfg : Config) :
    connectWithAuthTimeout cfg = timeSecond ∧
    ∀ evs errs, RaceEvent.timeout ∈ evs → (raceLoop evs errs).isSome = true := by
  refine ⟨rfl, ?_⟩
  intro evs
  induction evs with
  | nil =>
    intro errs h
    simp at h
  | cons ev evs ih =>
    intro errs h
    cases ev with
    | clientReady => simp [raceLoop]
    | timeout => simp [raceLoop]
    | attemptErr e =>
      have : RaceEvent.timeout ∈ evs := by
        rcases List.mem_cons.mp h with h1 | h1
        · exact absurd h1 (by simp)
        · exact h1
      simpa [raceLoop] using ih (errs ++ [e]) this

/-- Witness for C6 at a concrete configuration and event sequence. -/
theorem c6_fixed_deadline_witness :
    connectWithAuthTimeout ⟨["auth.example.com:3025"], none, 30000000000, 300000000000, 3⟩ =
      timeSecond ∧
    (raceLoop [RaceEvent.timeout] []).isSome = true :=
  ⟨(c6_fixed_deadline ⟨["auth.example.com:3025"], none, 30000000000, 300000000000, 3⟩).1,
    (c6_fixed_deadline ⟨["auth.example.com:3025"], none, 30000000000, 300000000000, 3⟩).2
      [RaceEvent.timeout] [] (by simp)⟩

/-- Counterexample for C6 as stated: at a configuration whose dial timeout
is thirty seconds, the deadline installed by `connectWithAuth` is still one
second — it is not derived from the configured dial timeout. -/
theorem c6_not_configured_cex :
    connectWithAuthTimeout ⟨["auth.example.com:3025"], none, 30000000000, 300000000000, 3⟩ ≠
      Config.DialTimeout ⟨["auth.example.com:3025"], none, 30000000000, 300000000000, 3⟩ := by
  decide

/-- C9: for a credential set that resolves successfully, the spawned
attempts are: exactly one with the credential set's own dialer against the
fixed API domain when it exposes one; else exactly one with the configured
dialer against the same domain when the configuration supplies one; else
one direct attempt per configured address plus — only when the credential
set carries an SSH config — one tunnel attempt per configured address. -/
theorem c9_attempt_enumeration (cfg : Config) (d s : Bool) :
    (d = true →
      spawnsFor cfg (CredOutcome.ok d s) = [⟨AttemptKind.credsDialer, APIDomain⟩]) ∧
    (d = false → cfg.Dialer.isSome = true →
      spawnsFor cfg (CredOutcome.ok d s) = [⟨AttemptKind.configDialer, APIDomain⟩]) ∧
    (d = false → cfg.Dialer = none →
      spawnsFor cfg (CredOutcome.ok d s) =
        cfg.Addrs.map (fun a => ⟨AttemptKind.direct, a⟩) ++
          (if s then cfg.Addrs.map (fun a => ⟨AttemptKind.tunnel, a⟩) else [])) := by
  refine ⟨fun hd => ?_, fun hd hcfg => ?_, fun hd hcfg => ?_⟩
  · simp [spawnsFor, hd]
  · simp [spawnsFor, hd, hcfg]
  · simp [spawnsFor, hd, hcfg]

/-- Witness for C9 at a concrete configuration with two addresses, no
configured dialer, no credentials dialer, and an SSH config: two direct and
two tunnel attempts. -/
theorem c9_attempt_enumeration_witness :
    spawnsFor ⟨["a:3025", "b:3025"], none, 0, 0, 0⟩ (CredOutcome.ok false true) =
      ["a:3025", "b:3025"].map (fun a => ⟨AttemptKind.direct, a⟩) ++
        (if true then ["a:3025", "b:3025"].map (fun a => ⟨AttemptKind.tunnel, a⟩)
         else []) :=
  (c9_attempt_enumeration ⟨["a:3025", "b:3025"], none, 0, 0, 0⟩ false true).2.2 rfl rfl

/-- A goroutine whose next operation is a send cannot step when every
operation of every other goroutine is also a send: an unbuffered send needs
a matching receive in a different goroutine. -/
lemma stuck_on_send (ch : Chan) (m : List GoInstr) (sp : List (List GoInstr))
    (hsp : ∀ g ∈ sp, ∀ i ∈ g, ∃ c, i = GoInstr.send c) (cfg2 : GoConfig) :
    ¬ GoStep ⟨GoInstr.send ch :: m, sp⟩ cfg2 := by
  intro h
  generalize hc : (⟨GoInstr.send ch :: m, sp⟩ : GoConfig) = cfg at h
  cases h with
  | selectRecv m2 sp2 i ch2 g hg =>
    cases hc
  | selectDone m2 sp2 =>
    cases hc
  | mainSend ch2 m2 sp2 i g hg =>
    cases hc
    have hmem : (GoInstr.recvSelect :: g) ∈ sp := List.get?_mem hg
    obtain ⟨c, hcon⟩ := hsp _ hmem GoInstr.recvSelect (List.mem_cons_self _ _)
    cases hcon
  | spawnedPair m2 sp2 i j ch2 gi gj hne hi hj =>
    cases hc
    have hmem : (GoInstr.recvSelect :: gj) ∈ sp := List.get?_mem hj
    obtain ⟨c, hcon⟩ := hsp _ hmem GoInstr.recvSelect (List.mem_cons_self _ _)
    cases hcon

/-- C5: a credential set whose TLS config fails to resolve spawns zero
attempts, but its error is not contributed to any aggregate: the main
goroutine's `errChan <- trace.Wrap(err)` is an unbuffered send executed
before the select loop is reached, every spawned `syncConnect` goroutine
only ever sends, and no other receiver exists — so from that point no step
of any goroutine is possible and `connectWithAuth` never returns. -/
theorem c5_resolution_error_deadlock (cfg : Config) (e : String)
    (rest : List GoInstr) (os : List AttemptOutcome) :
    spawnsFor cfg (CredOutcome.tlsFail e) = [] ∧
    ∀ cfg2, ¬ GoStep
      ⟨connectWithAuthMain [CredOutcome.tlsFail e] rest, os.map syncConnectChanOps⟩
      cfg2 := by
  refine ⟨rfl, fun cfg2 => ?_⟩
  have hmain : connectWithAuthMain [CredOutcome.tlsFail e] rest =
      GoInstr.send Chan.errChan :: rest := by
    simp [connectWithAuthMain, credChanOps]
  rw [hmain]
  refine stuck_on_send Chan.errChan rest (os.map syncConnectChanOps) ?_ cfg2
  intro g hg i hi
  obtain ⟨o, _, rfl⟩ := List.mem_map.mp hg
  cases o with
  | fail e2 =>
    simp only [syncConnectChanOps, List.mem_singleton] at hi
    exact ⟨Chan.errChan, hi⟩
  | succ c d s =>
    simp only [syncConnectChanOps, List.mem_singleton] at hi
    exact ⟨Chan.clientChan, hi⟩

/-- Witness for C5: the concrete single failing credential set, with the
select loop as the continuation and no spawned goroutines; even the
do-nothing step is impossible. -/
theorem c5_resolution_error_deadlock_witness :
    spawnsFor ⟨["a:3025"], none, 0, 0, 0⟩ (CredOutcome.tlsFail "bad credentials") = [] ∧
    ¬ GoStep
      ⟨connectWithAuthMain [CredOutcome.tlsFail "bad credentials"] [GoInstr.recvSelect],
        ([] : List AttemptOutcome).map syncConnectChanOps⟩
      ⟨[GoInstr.recvSelect], []⟩ :=
  ⟨(c5_resolution_error_deadlock ⟨["a:3025"], none, 0, 0, 0⟩ "bad credentials"
      [GoInstr.recvSelect] []).1,
    (c5_resolution_error_deadlock ⟨["a:3025"], none, 0, 0, 0⟩ "bad credentials"
      [GoInstr.recvSelect] []).2 ⟨[GoInstr.recvSelect], []⟩⟩

/-- A dial oracle for exercising `syncConnect`: the dialer the attempt was
spawned with yields connection 1, the tunnel dialer yields connection 2,
whatever address each is pointed at. -/
def demoGetClientConn : SyncDialer → String → Except String Nat
  | .spawned, _ => .ok 1
  | .tunnelFromSSH, _ => .ok 2

/-- A ping oracle: the health check on connection 1 advertises the public
tunnel address "proxy.example.com:3024"; any other connection's does not. -/
def demoPing (c : Nat) : Except String PingResponse :=
  .ok ⟨if c = 1 then "proxy.example.com:3024" else ""⟩

/-- C2: evaluation of `syncConnect` at an attempt whose health check
advertises the tunnel address "proxy.example.com:3024" and whose client
carries an SSH config. The tunnel branch dials the literal
"localhost:3024" — neither the advertised tunnel address nor the original
address — and, because the inner `conn, err := ...` shadows the outer
`conn`, the connection it installs is still the original connection 1 while
the installed service handle wraps the tunnel connection 2. -/
theorem c2_tunnel_redirect_divergence :
    demoPing 1 = Except.ok ⟨"proxy.example.com:3024"⟩ ∧
    syncConnect true demoGetClientConn demoPing "auth.example.com:3025" =
      Except.ok ⟨1, 2, some "localhost:3024"⟩ ∧
    "localhost:3024" ≠ "proxy.example.com:3024" ∧
    "localhost:3024" ≠ "auth.example.com:3025" ∧
    (1 : Nat) ≠ 2 := by
  refine ⟨rfl, rfl, by decide, by decide, by decide⟩

end TeleportClient
